import Mathlib

/-!
Shallow embedding of `src/git_zevent_place_fun_async.py` (Zevent Place level
fetcher) and proofs about it.

Conventions of the embedding:
  * Python ints are `ℤ`; container sizes are `ℕ`.
  * A numpy 2-d int array is a rectangular `List (List ℤ)` (`Grid`).
  * Code that can raise is modelled in `Except String`; the string names the
    Python exception.
  * The network is modelled by an oracle: either a deterministic
    `service : ℤ → ℤ → ℤ` answering every request, or, for the retry loop of
    `fetch_pixel_level`, an explicit list of successive response outcomes.
-/

namespace ZeventPlace

/-- A level value (the Python code stores `np.int_`). -/
abbrev Level := ℤ

/-- A dense 2-d array of levels, row-major, as numpy stores `data`. -/
abbrev Grid := List (List ℤ)

/-- The 4-tuple `(x1, y1, x2, y2)` delimiting a rectangle of the canvas. -/
structure Sector where
  x1 : ℤ
  y1 : ℤ
  x2 : ℤ
  y2 : ℤ
deriving DecidableEq

/-- `max_conc_req = 10000` at line 151 of the source. -/
def max_conc_req : ℕ := 10000

/-- `check_auth(headers)` (lines 52-63): true iff the headers carry a
non-empty authorization entry; when false the function prints a diagnostic
explaining how to obtain the key. The headers dict is abstracted to its one
dynamic entry. -/
def check_auth (authorization : Option String) : Bool :=
  match authorization with
  | none => false
  | some a => !a.isEmpty

/-- The wire coordinate object sent in the request body (line 78). -/
structure WirePixel where
  x : ℤ
  y : ℤ
deriving DecidableEq

/-- The JSON payload built by `fetch_pixel_level` (lines 76-80). -/
structure Payload where
  operationName : String
  pixel : WirePixel
  query : String
deriving DecidableEq

/-- The payload for pixel `(x, y)`: the wire protocol inverts x and y
(comment at line 78 of the source: "inverted x and y due to convention"). -/
def fetch_payload (x y : ℤ) : Payload :=
  { operationName := "getPixelLevel"
  , pixel := { x := y, y := x }
  , query := "query getPixelLevel($pixel: PixelUpgradeInput!) \x7bgetPixelLevel(pixel: $pixel) \x7bx y level coloredBy upgradedBy __typename\x7d\x7d" }

/-- The effect of `time.sleep(.1)` at line 91: the module never executes
`import time`, so evaluating the name `time` raises `NameError`. -/
def time_sleep : Except String Unit :=
  Except.error "NameError: name time is not defined"

/-- The outcome of one `fetch_pixel_level` call: its return value or the
exception that escaped it, the number of retries performed (failed attempts
that were followed by a further attempt) and the number of periodic failure
log lines printed. -/
structure FetchTrace where
  result : Except String (ℤ × ℤ × ℤ)
  retries : ℕ
  logs : ℕ

/-- `fetch_pixel_level(pixel, session)` (lines 65-91), driven by the list of
successive outcomes of the try-block body (`Except.ok level` for a decoded
response, `Except.error e` for any raised exception). The loop mirrors the
source: `tries = 0` stands at the TOP of the `while True:` body (line 82), so
it is reset on every iteration before being incremented in the handler; the
handler then logs when `tries % 10 == 0` and calls `time.sleep(.1)`, whose
result is matched so that the `NameError` it raises (the module never imports
`time`) escapes the function exactly as in Python. -/
def fetch_pixel_level (x y : ℤ) : List (Except String ℤ) → FetchTrace
  | [] => { result := Except.error "no further responses", retries := 0, logs := 0 }
  | resp :: rest =>
    match resp with
    | Except.ok level => { result := Except.ok (x, y, level), retries := 0, logs := 0 }
    | Except.error _ =>
      let tries : ℕ := 0 + 1
      let log : ℕ := if tries % 10 == 0 then 1 else 0
      match time_sleep with
      | Except.error e => { result := Except.error e, retries := 0, logs := log }
      | Except.ok _ =>
        let t := fetch_pixel_level x y rest
        { result := t.result, retries := t.retries + 1, logs := t.logs + log }

/-- Membership test `(a, b) in np.ndindex(m, n)` as used by `is_valid`
(line 131). Constructing `np.ndindex` with a negative dimension raises
`ValueError`; otherwise the iterator yields exactly the pairs `(i, j)` with
`0 ≤ i < m`, `0 ≤ j < n`. -/
def np_ndindex_mem (a b m n : ℤ) : Except String Bool :=
  if m < 0 ∨ n < 0 then Except.error "ValueError: negative dimensions are not allowed"
  else Except.ok (decide (0 ≤ a ∧ a < m ∧ 0 ≤ b ∧ b < n))

/-- `is_valid(sector)` (lines 119-135): `(x1,y1) in np.ndindex(x2,y2) and
(x2,y2) in np.ndindex(max_x + 1, max_y + 1)` with `max_x = max_y = 700`.
`and` short-circuits, so the second iterator is only built when the first
test holds; on `False` the function prints an invalid-sector diagnostic. -/
def is_valid (s : Sector) : Except String Bool :=
  match np_ndindex_mem s.x1 s.y1 s.x2 s.y2 with
  | Except.error e => Except.error e
  | Except.ok false => Except.ok false
  | Except.ok true => np_ndindex_mem s.x2 s.y2 701 701

/-- `np.zeros((h, w), dtype=np.int_)`. -/
def zeros (h w : ℕ) : Grid :=
  List.replicate h (List.replicate w 0)

/-- Read entry `(i, j)` of a grid (0 outside; actual reads stay in bounds). -/
def cell (g : Grid) (i j : ℕ) : ℤ :=
  (g.getD i []).getD j 0

/-- The grid is rectangular with `h` rows of `w` entries. -/
def GridShape (g : Grid) (h w : ℕ) : Prop :=
  g.length = h ∧ ∀ i, i < h → (g.getD i []).length = w

/-- Resolution of a Python/numpy index against an axis of length `n`:
indices in `[0, n)` are used as is, indices in `[-n, 0)` wrap around to
`n + i`, anything else raises `IndexError` (`none`). -/
def np_resolve (n : ℕ) (i : ℤ) : Option ℕ :=
  if 0 ≤ i ∧ i < (n : ℤ) then some i.toNat
  else if -(n : ℤ) ≤ i ∧ i < 0 then some (i + n).toNat
  else none

/-- One iteration of the fill loop of `get_level_data_concurrent`
(lines 112-116): `data[x - x1, y - y1] = level` inside `try`, with the
`except` printing a problem report and skipping the pixel. The Bool is
`true` exactly when the handler ran (an `IndexError` was caught and the
result was reported and skipped). -/
def scatter_result (x1 y1 : ℤ) (g : Grid) (r : ℤ × ℤ × ℤ) : Grid × Bool :=
  match np_resolve g.length (r.1 - x1) with
  | none => (g, true)
  | some i =>
    match np_resolve ((g.getD i []).length) (r.2.1 - y1) with
    | none => (g, true)
    | some j => (g.set i ((g.getD i []).set j r.2.2), false)

/-- The `for x, y, level in pixels_level_list:` fill loop (lines 112-116):
folds `scatter_result` over the fetched results, counting the skip reports. -/
def fill_data (x1 y1 : ℤ) : Grid × ℕ → List (ℤ × ℤ × ℤ) → Grid × ℕ
  | acc, [] => acc
  | acc, r :: rs =>
    match scatter_result x1 y1 acc.1 r with
    | (g, reported) => fill_data x1 y1 (g, acc.2 + (if reported then 1 else 0)) rs

/-- `np.ndindex(h, w)` as a list, row-major, as used at line 107. -/
def ndindex : ℕ → ℕ → List (ℕ × ℕ)
  | 0, _ => []
  | h + 1, w => ndindex h w ++ (List.range w).map (fun j => (h, j))

/-- `pixels = [(x1 + x, y1 + y) for x, y in np.ndindex(h, w)]` (line 107). -/
def sector_pixels (s : Sector) : List (ℤ × ℤ) :=
  (ndindex (s.x2 - s.x1).toNat (s.y2 - s.y1).toNat).map
    (fun p => (s.x1 + (p.1 : ℤ), s.y1 + (p.2 : ℤ)))

/-- `pixels_level_list` (line 110) under a deterministic service answering
every request: one `(x, y, level)` triple per pixel of the sector. -/
def sector_results (service : ℤ → ℤ → ℤ) (s : Sector) : List (ℤ × ℤ × ℤ) :=
  (sector_pixels s).map (fun p => (p.1, p.2, service p.1 p.2))

/-- `get_level_data_concurrent(sector)` (lines 93-117) under a deterministic
service: allocate `np.zeros((h, w))`, fetch every pixel of the sector, fill
the matrix. `asyncio.gather` hands the results back in request order, but
none of the proofs below depend on that order. -/
def get_level_data_concurrent (service : ℤ → ℤ → ℤ) (s : Sector) : Grid :=
  (fill_data s.x1 s.y1
    (zeros (s.x2 - s.x1).toNat (s.y2 - s.y1).toNat, 0)
    (sector_results service s)).1

/-- `num_col_batch = max_conc_req // h` (line 154). -/
def num_col_batch (h : ℕ) : ℕ :=
  max_conc_req / h

/-- Ceiling division on ℕ; equals `np.int_(np.ceil(w / k))` of line 155 for
the ranges reachable from a valid sector (w ≤ 700, k ≤ 10000), where the
float division is exact. -/
def ceil_div (a b : ℕ) : ℕ :=
  (a + b - 1) / b

/-- `num_batches` (line 155). -/
def num_batches (s : Sector) : ℕ :=
  ceil_div (s.y2 - s.y1).toNat (num_col_batch (s.x2 - s.x1).toNat)

/-- The sub-sector handled by batch `b` (lines 161-163): columns
`y1b = y1 + b * num_col_batch` up to `y2b = min(y2, y1b + num_col_batch)`. -/
def batch_sector (s : Sector) (b : ℕ) : Sector :=
  let k : ℤ := (num_col_batch (s.x2 - s.x1).toNat : ℤ)
  let y1b := s.y1 + (b : ℤ) * k
  let y2b := min s.y2 (y1b + k)
  { x1 := s.x1, y1 := y1b, x2 := s.x2, y2 := y2b }

/-- The batches in the order the `for b in tqdm(range(num_batches))` loop
(line 160) runs them, strictly sequentially. -/
def batch_sectors (s : Sector) : List Sector :=
  (List.range (num_batches s)).map (batch_sector s)

/-- `row[c0 : c0 + len(seg)] = seg`: the column-slice assignment
`data[:, (y1b - y1):(y2b - y1)] = data_batch` (line 165) acting on one row.
numpy would raise on a shape mismatch; every driver call satisfies
`c0 + seg.length ≤ row.length` (proved below), where this model and numpy
agree. -/
def overwrite_segment (row : List ℤ) (c0 : ℕ) (seg : List ℤ) : List ℤ :=
  row.take c0 ++ seg ++ row.drop (c0 + seg.length)

/-- The whole slice assignment `data[:, (y1b - y1):(y2b - y1)] = data_batch`
(line 165). -/
def write_cols (g : Grid) (c0 : ℕ) (batch : Grid) : Grid :=
  List.zipWith (fun row brow => overwrite_segment row c0 brow) g batch

/-- `get_level_data(sector)` (lines 137-166) under a deterministic service.
Returns the grid together with the total number of network requests issued:
an invalid sector short-circuits (after the printed diagnostic) to
`np.zeros((1,1))` and 0 requests; missing credentials short-circuit (after
the `check_auth` diagnostic) to the all-zero `(h, w)` grid and 0 requests;
otherwise the batches run sequentially, each issuing one request per pixel
and being copied into its column range of the accumulating grid. -/
def get_level_data (authorization : Option String) (service : ℤ → ℤ → ℤ)
    (s : Sector) : Except String (Grid × ℕ) :=
  match is_valid s with
  | Except.error e => Except.error e
  | Except.ok false => Except.ok (zeros 1 1, 0)
  | Except.ok true =>
    let h := (s.x2 - s.x1).toNat
    let w := (s.y2 - s.y1).toNat
    if check_auth authorization then
      Except.ok ((batch_sectors s).foldl
        (fun acc bs =>
          (write_cols acc.1 (bs.y1 - s.y1).toNat (get_level_data_concurrent service bs),
           acc.2 + (sector_pixels bs).length))
        (zeros h w, 0))
    else
      Except.ok (zeros h w, 0)

/-- `np.amax(data)` (line 179): raises `ValueError` on a zero-size array. -/
def np_amax (g : Grid) : Except String ℤ :=
  match (g.flatten).max? with
  | none => Except.error "ValueError: zero-size array to reduction operation"
  | some m => Except.ok m

/-- `plot_level_map_from_data(data, sector)` (lines 168-185), reduced to its
observable effect: `Except.ok true` when the plot is drawn and shown
(`max_level > 0`), `Except.ok false` when nothing is rendered. -/
def plot_level_map_from_data (data : Grid) : Except String Bool :=
  match np_amax data with
  | Except.error e => Except.error e
  | Except.ok m => Except.ok (decide (0 < m))

/-- The deterministic mock service of the spec example: level = x*10 + y. -/
def srv_example : ℤ → ℤ → ℤ :=
  fun x y => x * 10 + y

/-- A result `r` resolves (numpy-style, against an `h × w` grid at origin
`(x1, y1)`) to the cell `(i, j)` and would be written there. -/
def writes_to (h w : ℕ) (x1 y1 : ℤ) (r : ℤ × ℤ × ℤ) (i j : ℕ) : Prop :=
  np_resolve h (r.1 - x1) = some i ∧ np_resolve w (r.2.1 - y1) = some j

instance {α β : Type} [DecidableEq α] [DecidableEq β] : DecidableEq (Except α β) :=
  fun a b =>
    match a, b with
    | Except.ok x, Except.ok y =>
      if h : x = y then isTrue (by rw [h]) else isFalse (by intro hc; cases hc; exact h rfl)
    | Except.error x, Except.error y =>
      if h : x = y then isTrue (by rw [h]) else isFalse (by intro hc; cases hc; exact h rfl)
    | Except.ok _, Except.error _ => isFalse (by intro hc; cases hc)
    | Except.error _, Except.ok _ => isFalse (by intro hc; cases hc)

lemma getD_replicate {α : Type} (n i : ℕ) (x d : α) (h : i < n) :
    (List.replicate n x).getD i d = x := by
  simp [List.getD, List.getElem?_replicate, h]

lemma getD_set_self {α : Type} (l : List α) (i : ℕ) (a d : α) (h : i < l.length) :
    (l.set i a).getD i d = a := by
  simp [List.getD, List.getElem?_set_self, h]

lemma getD_set_ne {α : Type} (l : List α) (i k : ℕ) (a d : α) (h : i ≠ k) :
    (l.set i a).getD k d = l.getD k d := by
  simp [List.getD, List.getElem?_set_ne, h]

lemma getD_eq_getElem {α : Type} (l : List α) (i : ℕ) (d : α) (h : i < l.length) :
    l.getD i d = l[i] := by
  simp [List.getD, List.getElem?_eq_getElem, h]

lemma list_ext_getD {α : Type} (d : α) (l1 l2 : List α) (hlen : l1.length = l2.length)
    (h : ∀ i, i < l1.length → l1.getD i d = l2.getD i d) : l1 = l2 := by
  refine List.ext_getElem hlen (fun i h1 h2 => ?_)
  have h3 := h i h1
  rwa [getD_eq_getElem l1 i d h1, getD_eq_getElem l2 i d h2] at h3

lemma zeros_shape (h w : ℕ) : GridShape (zeros h w) h w := by
  constructor
  · simp [zeros]
  · intro i hi
    rw [zeros, getD_replicate h i (List.replicate w 0) [] hi]
    simp

lemma grid_ext (g1 g2 : Grid) (h w : ℕ) (h1 : GridShape g1 h w) (h2 : GridShape g2 h w)
    (hc : ∀ i j, i < h → j < w → cell g1 i j = cell g2 i j) : g1 = g2 := by
  refine list_ext_getD [] g1 g2 (h1.1.trans h2.1.symm) (fun i hi => ?_)
  have hih : i < h := h1.1 ▸ hi
  refine list_ext_getD 0 _ _ ?_ (fun j hj => ?_)
  · rw [h1.2 i hih, h2.2 i hih]
  · have hjw : j < w := by rw [h1.2 i hih] at hj; exact hj
    exact hc i j hih hjw

lemma np_resolve_lt {n : ℕ} {i : ℤ} {k : ℕ} (h : np_resolve n i = some k) : k < n := by
  unfold np_resolve at h
  split_ifs at h with h1 h2 <;> simp at h <;> omega

lemma np_resolve_in_range {n : ℕ} {i : ℤ} (h0 : 0 ≤ i) (hn : i < (n : ℤ)) :
    np_resolve n i = some i.toNat := by
  unfold np_resolve
  rw [if_pos ⟨h0, hn⟩]

lemma scatter_shape (h w : ℕ) (x1 y1 : ℤ) (g : Grid) (hg : GridShape g h w)
    (r : ℤ × ℤ × ℤ) : GridShape (scatter_result x1 y1 g r).1 h w := by
  unfold scatter_result
  split
  · exact hg
  · rename_i i hr
    split
    · exact hg
    · rename_i j hc
      have hil : i < g.length := np_resolve_lt hr
      have hih : i < h := hg.1 ▸ hil
      constructor
      · simpa using hg.1
      · intro i2 hi2
        by_cases hii : i = i2
        · subst hii
          rw [getD_set_self g i _ [] hil]
          simpa using hg.2 i hih
        · rw [getD_set_ne g i i2 _ [] hii]
          exact hg.2 i2 hi2

lemma scatter_cell_writes (h w : ℕ) (x1 y1 : ℤ) (g : Grid) (hg : GridShape g h w)
    (r : ℤ × ℤ × ℤ) (i j : ℕ) (hw : writes_to h w x1 y1 r i j) :
    cell (scatter_result x1 y1 g r).1 i j = r.2.2 := by
  obtain ⟨hr, hc⟩ := hw
  have hih : i < h := np_resolve_lt hr
  have hjw : j < w := np_resolve_lt hc
  have hgl : g.length = h := hg.1
  have hrow : (g.getD i []).length = w := hg.2 i hih
  have hr2 : np_resolve g.length (r.1 - x1) = some i := by rw [hgl]; exact hr
  have hc2 : np_resolve ((g.getD i []).length) (r.2.1 - y1) = some j := by
    rw [hrow]; exact hc
  unfold scatter_result
  split
  · rename_i heq; rw [hr2] at heq; cases heq
  · rename_i a heq
    rw [hr2] at heq
    cases heq
    split
    · rename_i heq2; rw [hc2] at heq2; cases heq2
    · rename_i b heq2
      rw [hc2] at heq2
      cases heq2
      unfold cell
      rw [getD_set_self g i _ [] (by omega), getD_set_self _ j _ 0 (by omega)]

lemma scatter_cell_other (h w : ℕ) (x1 y1 : ℤ) (g : Grid) (hg : GridShape g h w)
    (r : ℤ × ℤ × ℤ) (i j : ℕ) (hn : ¬ writes_to h w x1 y1 r i j) :
    cell (scatter_result x1 y1 g r).1 i j = cell g i j := by
  unfold scatter_result
  split
  · rfl
  · rename_i a hr
    split
    · rfl
    · rename_i b hc
      have hal : a < g.length := np_resolve_lt hr
      have hah : a < h := hg.1 ▸ hal
      have hrow : (g.getD a []).length = w := hg.2 a hah
      have hne : a ≠ i ∨ b ≠ j := by
        by_contra hcon
        push_neg at hcon
        refine hn ⟨?_, ?_⟩
        · rw [← hcon.1, ← hg.1]; exact hr
        · rw [← hcon.2, ← hrow]; exact hc
      show cell (g.set a ((g.getD a []).set b r.2.2)) i j = cell g i j
      unfold cell
      rcases hne with hne | hne
      · rw [getD_set_ne g a i _ [] hne]
      · by_cases hai : a = i
        · subst hai
          rw [getD_set_self g a _ [] hal, getD_set_ne _ b j _ 0 hne]
        · rw [getD_set_ne g a i _ [] hai]

lemma scatter_skip (h w : ℕ) (x1 y1 : ℤ) (g : Grid) (hg : GridShape g h w)
    (r : ℤ × ℤ × ℤ)
    (hout : np_resolve h (r.1 - x1) = none ∨ np_resolve w (r.2.1 - y1) = none) :
    scatter_result x1 y1 g r = (g, true) := by
  unfold scatter_result
  split
  · rfl
  · rename_i a hr
    split
    · rfl
    · rename_i b hc
      have hah : a < h := hg.1 ▸ np_resolve_lt hr
      have hrow : (g.getD a []).length = w := hg.2 a hah
      rcases hout with hout | hout
      · rw [hg.1] at hr
        rw [hr] at hout
        cases hout
      · rw [hrow] at hc
        rw [hc] at hout
        cases hout

lemma scatter_write (h w : ℕ) (x1 y1 : ℤ) (g : Grid) (hg : GridShape g h w)
    (r : ℤ × ℤ × ℤ) (i j : ℕ) (hw : writes_to h w x1 y1 r i j) :
    scatter_result x1 y1 g r = (g.set i ((g.getD i []).set j r.2.2), false) := by
  obtain ⟨hr, hc⟩ := hw
  have hih : i < h := np_resolve_lt hr
  have hr2 : np_resolve g.length (r.1 - x1) = some i := by rw [hg.1]; exact hr
  have hc2 : np_resolve ((g.getD i []).length) (r.2.1 - y1) = some j := by
    rw [hg.2 i hih]; exact hc
  unfold scatter_result
  split
  · rename_i heq; rw [hr2] at heq; cases heq
  · rename_i a heq
    rw [hr2] at heq
    cases heq
    split
    · rename_i heq2; rw [hc2] at heq2; cases heq2
    · rename_i b heq2
      rw [hc2] at heq2
      cases heq2
      rfl

lemma fill_shape (h w : ℕ) (x1 y1 : ℤ) (rs : List (ℤ × ℤ × ℤ)) :
    ∀ (acc : Grid × ℕ), GridShape acc.1 h w → GridShape (fill_data x1 y1 acc rs).1 h w := by
  induction rs with
  | nil => intro acc hg; exact hg
  | cons r rs ih =>
    intro acc hg
    rcases hsr : scatter_result x1 y1 acc.1 r with ⟨g2, rep⟩
    have hg2 : GridShape g2 h w := by
      have h2 := scatter_shape h w x1 y1 acc.1 hg r
      rw [hsr] at h2
      exact h2
    rw [fill_data, hsr]
    exact ih _ hg2

lemma fill_cell (h w : ℕ) (x1 y1 : ℤ) (i j : ℕ) (v : ℤ)
    (rs : List (ℤ × ℤ × ℤ)) :
    ∀ (acc : Grid × ℕ), GridShape acc.1 h w →
      (∀ r ∈ rs, writes_to h w x1 y1 r i j → r.2.2 = v) →
      ((∃ r ∈ rs, writes_to h w x1 y1 r i j) ∨ cell acc.1 i j = v) →
      cell (fill_data x1 y1 acc rs).1 i j = v := by
  induction rs with
  | nil =>
    intro acc _ _ hex
    rcases hex with ⟨r, hr, _⟩ | hcell
    · simp at hr
    · exact hcell
  | cons r rs ih =>
    intro acc hg hall hex
    rcases hsr : scatter_result x1 y1 acc.1 r with ⟨g2, rep⟩
    have hg2 : GridShape g2 h w := by
      have h2 := scatter_shape h w x1 y1 acc.1 hg r
      rw [hsr] at h2
      exact h2
    rw [fill_data, hsr]
    by_cases hwr : writes_to h w x1 y1 r i j
    · refine ih _ hg2 (fun r2 h2 hw2 => hall r2 (List.mem_cons_of_mem r h2) hw2)
        (Or.inr ?_)
      have h3 := scatter_cell_writes h w x1 y1 acc.1 hg r i j hwr
      rw [hsr] at h3
      show cell g2 i j = v
      rw [h3]
      exact hall r (List.mem_cons_self r rs) hwr
    · refine ih _ hg2 (fun r2 h2 hw2 => hall r2 (List.mem_cons_of_mem r h2) hw2) ?_
      rcases hex with ⟨r2, h2, hw2⟩ | hcell
      · rcases List.mem_cons.mp h2 with h2 | h2
        · subst h2; exact absurd hw2 hwr
        · exact Or.inl ⟨r2, h2, hw2⟩
      · refine Or.inr ?_
        have h3 := scatter_cell_other h w x1 y1 acc.1 hg r i j hwr
        rw [hsr] at h3
        show cell g2 i j = v
        rw [h3]
        exact hcell

lemma mem_ndindex (h w : ℕ) (p : ℕ × ℕ) : p ∈ ndindex h w ↔ p.1 < h ∧ p.2 < w := by
  induction h with
  | zero => simp [ndindex]
  | succ h ih =>
    rw [ndindex, List.mem_append, ih]
    simp only [List.mem_map, List.mem_range]
    constructor
    · rintro (⟨h1, h2⟩ | ⟨j, hj, hp⟩)
      · exact ⟨by omega, h2⟩
      · rw [← hp]
        exact ⟨by omega, hj⟩
    · rintro ⟨h1, h2⟩
      by_cases hlt : p.1 < h
      · exact Or.inl ⟨hlt, h2⟩
      · refine Or.inr ⟨p.2, h2, ?_⟩
        have hp1 : p.1 = h := by omega
        rw [← hp1]

lemma length_ndindex (h w : ℕ) : (ndindex h w).length = h * w := by
  induction h with
  | zero => simp [ndindex]
  | succ h ih =>
    rw [ndindex]
    simp [ih]
    ring

lemma length_sector_pixels (s : Sector) :
    (sector_pixels s).length = (s.x2 - s.x1).toNat * (s.y2 - s.y1).toNat := by
  rw [sector_pixels, List.length_map, length_ndindex]

lemma mem_sector_results (service : ℤ → ℤ → ℤ) (s : Sector) (r : ℤ × ℤ × ℤ) :
    r ∈ sector_results service s ↔
      ∃ a b : ℕ, a < (s.x2 - s.x1).toNat ∧ b < (s.y2 - s.y1).toNat ∧
        r = (s.x1 + (a : ℤ), s.y1 + (b : ℤ),
             service (s.x1 + (a : ℤ)) (s.y1 + (b : ℤ))) := by
  unfold sector_results sector_pixels
  simp only [List.mem_map]
  constructor
  · rintro ⟨q, ⟨p, hp, rfl⟩, rfl⟩
    rw [mem_ndindex] at hp
    exact ⟨p.1, p.2, hp.1, hp.2, rfl⟩
  · rintro ⟨a, b, ha, hb, rfl⟩
    exact ⟨(s.x1 + (a : ℤ), s.y1 + (b : ℤ)),
           ⟨(a, b), (mem_ndindex _ _ _).mpr ⟨ha, hb⟩, rfl⟩, rfl⟩

lemma is_valid_iff (s : Sector) :
    is_valid s = Except.ok true ↔
      (0 ≤ s.x1 ∧ s.x1 < s.x2 ∧ s.x2 ≤ 700 ∧ 0 ≤ s.y1 ∧ s.y1 < s.y2 ∧ s.y2 ≤ 700) := by
  unfold is_valid np_ndindex_mem
  by_cases hneg : s.x2 < 0 ∨ s.y2 < 0
  · rw [if_pos hneg]
    constructor
    · intro hcon
      cases hcon
    · intro hb
      omega
  · rw [if_neg hneg]
    push_neg at hneg
    by_cases h1 : 0 ≤ s.x1 ∧ s.x1 < s.x2 ∧ 0 ≤ s.y1 ∧ s.y1 < s.y2
    · rw [decide_eq_true h1, if_neg (by omega : ¬ ((701 : ℤ) < 0 ∨ (701 : ℤ) < 0))]
      show Except.ok (decide _) = Except.ok true ↔ _
      simp only [Except.ok.injEq, decide_eq_true_eq]
      omega
    · rw [decide_eq_false h1]
      show Except.ok false = Except.ok true ↔ _
      constructor
      · intro hcon
        cases hcon
      · intro hb
        exact absurd (by omega) h1

lemma valid_bounds (s : Sector) (hv : is_valid s = Except.ok true) :
    0 ≤ s.x1 ∧ s.x1 < s.x2 ∧ s.x2 ≤ 700 ∧ 0 ≤ s.y1 ∧ s.y1 < s.y2 ∧ s.y2 ≤ 700 :=
  (is_valid_iff s).mp hv

lemma num_col_batch_ge (h : ℕ) (h1 : 1 ≤ h) (h2 : h ≤ 700) : 14 ≤ num_col_batch h := by
  unfold num_col_batch max_conc_req
  rw [Nat.le_div_iff_mul_le (by omega : 0 < h)]
  omega

lemma lt_of_lt_ceil_div (w k b : ℕ) (hw : 0 < w) (hb : b < ceil_div w k) :
    b * k < w := by
  unfold ceil_div at hb
  have h1 : (b + 1) * k ≤ (w + k - 1) / k * k := Nat.mul_le_mul_right k hb
  have h2 : (w + k - 1) / k * k ≤ w + k - 1 := Nat.div_mul_le_self _ _
  have h3 : (b + 1) * k = b * k + k := by ring
  omega

lemma ceil_div_mul_ge (w k : ℕ) (hk : 0 < k) : w ≤ ceil_div w k * k := by
  unfold ceil_div
  have h1 := Nat.div_add_mod (w + k - 1) k
  have h2 : (w + k - 1) % k < k := Nat.mod_lt _ hk
  have h3 : (w + k - 1) / k * k = k * ((w + k - 1) / k) := Nat.mul_comm _ _
  omega

lemma ceil_div_pos (w k : ℕ) (hw : 0 < w) (hk : 0 < k) : 0 < ceil_div w k := by
  rcases Nat.eq_zero_or_pos (ceil_div w k) with h | h
  · have h1 := ceil_div_mul_ge w k hk
    rw [h] at h1
    omega
  · exact h

lemma getD_zipWith (f : List ℤ → List ℤ → List ℤ) (l1 l2 : Grid) (i : ℕ)
    (h1 : i < l1.length) (h2 : i < l2.length) :
    (List.zipWith f l1 l2).getD i [] = f (l1.getD i []) (l2.getD i []) := by
  simp [List.getD, List.getElem?_zipWith, List.getElem?_eq_getElem, h1, h2]

lemma length_overwrite_segment (row seg : List ℤ) (c0 : ℕ)
    (hfit : c0 + seg.length ≤ row.length) :
    (overwrite_segment row c0 seg).length = row.length := by
  unfold overwrite_segment
  simp only [List.length_append, List.length_take, List.length_drop]
  omega

lemma write_cols_shape (h w wb c0 : ℕ) (g batch : Grid) (hg : GridShape g h w)
    (hbl : batch.length = h) (hbr : ∀ i, i < h → (batch.getD i []).length = wb)
    (hfit : c0 + wb ≤ w) : GridShape (write_cols g c0 batch) h w := by
  constructor
  · rw [write_cols, List.length_zipWith, hg.1, hbl, Nat.min_self]
  · intro i hi
    have hgl : i < g.length := by rw [hg.1]; exact hi
    have hbl2 : i < batch.length := by rw [hbl]; exact hi
    rw [write_cols, getD_zipWith _ g batch i hgl hbl2,
        length_overwrite_segment _ _ _ (by rw [hg.2 i hi, hbr i hi]; omega)]
    exact hg.2 i hi

lemma concurrent_shape (service : ℤ → ℤ → ℤ) (s : Sector) :
    GridShape (get_level_data_concurrent service s)
      (s.x2 - s.x1).toNat (s.y2 - s.y1).toNat := by
  unfold get_level_data_concurrent
  exact fill_shape _ _ _ _ _ _ (zeros_shape _ _)

lemma foldl_write_shape (service : ℤ → ℤ → ℤ) (y1 : ℤ) (h w : ℕ) (bl : List Sector) :
    ∀ (acc : Grid × ℕ), GridShape acc.1 h w →
      (∀ bs ∈ bl, (bs.x2 - bs.x1).toNat = h ∧ y1 ≤ bs.y1 ∧ bs.y1 ≤ bs.y2 ∧
        bs.y2 ≤ y1 + (w : ℤ)) →
      GridShape ((bl.foldl (fun acc bs =>
        (write_cols acc.1 (bs.y1 - y1).toNat (get_level_data_concurrent service bs),
         acc.2 + (sector_pixels bs).length)) acc).1) h w := by
  induction bl with
  | nil => intro acc hg _; exact hg
  | cons bs bl ih =>
    intro acc hg hall
    rw [List.foldl_cons]
    refine ih _ ?_ (fun b hb => hall b (List.mem_cons_of_mem bs hb))
    obtain ⟨hh, hy1, hy2, hy3⟩ := hall bs (List.mem_cons_self bs bl)
    have hbs := concurrent_shape service bs
    rw [hh] at hbs
    refine write_cols_shape h w ((bs.y2 - bs.y1).toNat) ((bs.y1 - y1).toNat)
      acc.1 (get_level_data_concurrent service bs) hg hbs.1 (fun i hi => hbs.2 i hi) ?_
    omega

lemma batch_sector_bounds (s : Sector) (hv : is_valid s = Except.ok true) (b : ℕ)
    (hb : b < num_batches s) :
    (batch_sector s b).x1 = s.x1 ∧ (batch_sector s b).x2 = s.x2 ∧
    (batch_sector s b).y1 = s.y1 + (b : ℤ) * (num_col_batch (s.x2 - s.x1).toNat : ℤ) ∧
    s.y1 ≤ (batch_sector s b).y1 ∧ (batch_sector s b).y1 < (batch_sector s b).y2 ∧
    (batch_sector s b).y2 ≤ s.y2 ∧
    (batch_sector s b).y2 - (batch_sector s b).y1 ≤
      (num_col_batch (s.x2 - s.x1).toNat : ℤ) := by
  obtain ⟨b1, b2, b3, b4, b5, b6⟩ := valid_bounds s hv
  have hh1 : 1 ≤ (s.x2 - s.x1).toNat := by omega
  have hh2 : (s.x2 - s.x1).toNat ≤ 700 := by omega
  have hk : 14 ≤ num_col_batch (s.x2 - s.x1).toNat := num_col_batch_ge _ hh1 hh2
  have hw : 0 < (s.y2 - s.y1).toNat := by omega
  have hbk : b * num_col_batch (s.x2 - s.x1).toNat < (s.y2 - s.y1).toNat :=
    lt_of_lt_ceil_div _ _ b hw hb
  have hcast : ((b * num_col_batch (s.x2 - s.x1).toNat : ℕ) : ℤ) =
      (b : ℤ) * (num_col_batch (s.x2 - s.x1).toNat : ℤ) := by push_cast; ring
  have hcw : (((s.y2 - s.y1).toNat : ℕ) : ℤ) = s.y2 - s.y1 := Int.toNat_of_nonneg (by omega)
  have hbk2 : (b : ℤ) * (num_col_batch (s.x2 - s.x1).toNat : ℤ) < s.y2 - s.y1 := by
    rw [← hcast, ← hcw]
    exact_mod_cast hbk
  unfold batch_sector
  refine ⟨rfl, rfl, rfl, ?_, ?_, ?_, ?_⟩
  · simp only []
    nlinarith [hk]
  · simp only [lt_min_iff]
    constructor
    · omega
    · have : (0 : ℤ) < (num_col_batch (s.x2 - s.x1).toNat : ℤ) := by exact_mod_cast by omega
      omega
  · exact min_le_left _ _
  · simp only []
    omega


/-- Claim C1 (code bug). The claim says a call whose first N responses are
errors retries exactly N times, logs floor(N/10) periodic failures and
returns the level of the (N+1)-th response, never aborting. In the code,
the `except` handler calls `time.sleep(.1)` but the module never imports
`time`, so the first failure raises `NameError` out of the function: with
trace `[error, ok 7]` (N = 1) the call aborts with 0 retries and 0 logs
instead of returning level 7 after one retry. (Two further slips point the
same way: `tries = 0` sits inside the `while` loop, so the `tries % 10`
log can never fire, and the log line references an undefined name `n`.)
The first conjunct checks the N = 0 path does succeed. -/
theorem fetch_pixel_level_first_failure_aborts :
    fetch_pixel_level 0 0 [Except.ok 7] =
      { result := Except.ok (0, 0, 7), retries := 0, logs := 0 } ∧
    fetch_pixel_level 0 0 [Except.error "boom", Except.ok 7] =
      { result := Except.error "NameError: name time is not defined",
        retries := 0, logs := 0 } :=
  ⟨rfl, rfl⟩

/-- Claim C2: for every sector the code accepts, `get_level_data` returns a
grid of shape exactly `(x2 - x1, y2 - y1)` (whether or not credentials are
configured, and for any service answers). -/
theorem get_level_data_shape (s : Sector) (authorization : Option String)
    (service : ℤ → ℤ → ℤ) (hv : is_valid s = Except.ok true) :
    ∃ g n, get_level_data authorization service s = Except.ok (g, n) ∧
      GridShape g (s.x2 - s.x1).toNat (s.y2 - s.y1).toNat := by
  simp only [get_level_data, hv]
  cases hca : check_auth authorization with
  | false =>
    simp only [Bool.false_eq_true, if_false]
    exact ⟨_, _, rfl, zeros_shape _ _⟩
  | true =>
    simp only [if_true]
    refine ⟨_, _, rfl, ?_⟩
    refine foldl_write_shape service s.y1 _ _ (batch_sectors s) _ (zeros_shape _ _) ?_
    intro bs hbs
    obtain ⟨b, hbmem, rfl⟩ := List.mem_map.mp hbs
    rw [List.mem_range] at hbmem
    obtain ⟨e1, e2, e3, e4, e5, e6, e7⟩ := batch_sector_bounds s hv b hbmem
    obtain ⟨c1, c2, c3, c4, c5, c6⟩ := valid_bounds s hv
    have hcw : (((s.y2 - s.y1).toNat : ℕ) : ℤ) = s.y2 - s.y1 :=
      Int.toNat_of_nonneg (by omega)
    refine ⟨?_, e4, by omega, by omega⟩
    rw [e1, e2]

/-- Claim C2 witness at the spec example sector (0,0,2,3). -/
theorem get_level_data_shape_witness :
    ∃ g n, get_level_data (some "token") srv_example ⟨0, 0, 2, 3⟩ = Except.ok (g, n) ∧
      GridShape g ((2 : ℤ) - 0).toNat ((3 : ℤ) - 0).toNat :=
  get_level_data_shape ⟨0, 0, 2, 3⟩ (some "token") srv_example (by decide)

/-- Claim C3: for every valid sector the driver runs exactly
ceil(width / num_col_batch) batches (in the strictly sequential order of
`batch_sectors`); consecutive batches are contiguous in columns, the final
batch ends exactly at y2 (covering the remainder), and no batch issues more
than `max_conc_req` coordinate requests. -/
theorem get_level_data_batching (s : Sector) (hv : is_valid s = Except.ok true) :
    (batch_sectors s).length =
      ceil_div (s.y2 - s.y1).toNat (num_col_batch (s.x2 - s.x1).toNat) ∧
    0 < num_batches s ∧
    (∀ b : ℕ, b + 1 < num_batches s →
      (batch_sector s (b + 1)).y1 = (batch_sector s b).y2) ∧
    (batch_sector s (num_batches s - 1)).y2 = s.y2 ∧
    (∀ bs ∈ batch_sectors s, (sector_pixels bs).length ≤ max_conc_req) := by
  obtain ⟨c1, c2, c3, c4, c5, c6⟩ := valid_bounds s hv
  have hh1 : 1 ≤ (s.x2 - s.x1).toNat := by omega
  have hh2 : (s.x2 - s.x1).toNat ≤ 700 := by omega
  have hk : 14 ≤ num_col_batch (s.x2 - s.x1).toNat := num_col_batch_ge _ hh1 hh2
  have hw0 : 0 < (s.y2 - s.y1).toNat := by omega
  have hcw : (((s.y2 - s.y1).toNat : ℕ) : ℤ) = s.y2 - s.y1 :=
    Int.toNat_of_nonneg (by omega)
  have hnb : 0 < num_batches s := ceil_div_pos _ _ hw0 (by omega)
  refine ⟨?_, hnb, ?_, ?_, ?_⟩
  · rw [batch_sectors, List.length_map, List.length_range]
    rfl
  · intro b hb
    have hlt : (b + 1) * num_col_batch (s.x2 - s.x1).toNat < (s.y2 - s.y1).toNat :=
      lt_of_lt_ceil_div _ _ _ hw0 hb
    have hltZ : ((b : ℤ) + 1) * (num_col_batch (s.x2 - s.x1).toNat : ℤ) < s.y2 - s.y1 := by
      rw [← hcw]
      exact_mod_cast hlt
    unfold batch_sector
    simp only []
    rw [min_eq_right (by linarith)]
    push_cast
    ring
  · have hge := ceil_div_mul_ge (s.y2 - s.y1).toNat
      (num_col_batch (s.x2 - s.x1).toNat) (by omega)
    have hgeZ : s.y2 - s.y1 ≤
        (num_batches s : ℤ) * (num_col_batch (s.x2 - s.x1).toNat : ℤ) := by
      rw [← hcw]
      unfold num_batches
      exact_mod_cast hge
    have hnb1 : ((num_batches s - 1 : ℕ) : ℤ) = (num_batches s : ℤ) - 1 := by
      omega
    unfold batch_sector
    simp only []
    rw [min_eq_left (by rw [hnb1]; linarith)]
  · intro bs hbs
    obtain ⟨b, hbmem, rfl⟩ := List.mem_map.mp hbs
    rw [List.mem_range] at hbmem
    obtain ⟨e1, e2, e3, e4, e5, e6, e7⟩ := batch_sector_bounds s hv b hbmem
    rw [length_sector_pixels]
    have hhb : ((batch_sector s b).x2 - (batch_sector s b).x1).toNat =
        (s.x2 - s.x1).toNat := by
      rw [e1, e2]
    have hwb : ((batch_sector s b).y2 - (batch_sector s b).y1).toNat ≤
        num_col_batch (s.x2 - s.x1).toNat := by
      omega
    rw [hhb]
    calc (s.x2 - s.x1).toNat * ((batch_sector s b).y2 - (batch_sector s b).y1).toNat
        ≤ (s.x2 - s.x1).toNat * num_col_batch (s.x2 - s.x1).toNat :=
          Nat.mul_le_mul_left _ hwb
      _ = num_col_batch (s.x2 - s.x1).toNat * (s.x2 - s.x1).toNat := Nat.mul_comm _ _
      _ ≤ max_conc_req := by
          unfold num_col_batch
          exact Nat.div_mul_le_self _ _

/-- Claim C3 witness at the spec example sector (0,0,2,3). -/
theorem get_level_data_batching_witness :
    (batch_sectors ⟨0, 0, 2, 3⟩).length =
      ceil_div ((3 : ℤ) - 0).toNat (num_col_batch ((2 : ℤ) - 0).toNat) ∧
    0 < num_batches ⟨0, 0, 2, 3⟩ ∧
    (∀ b : ℕ, b + 1 < num_batches ⟨0, 0, 2, 3⟩ →
      (batch_sector ⟨0, 0, 2, 3⟩ (b + 1)).y1 = (batch_sector ⟨0, 0, 2, 3⟩ b).y2) ∧
    (batch_sector ⟨0, 0, 2, 3⟩ (num_batches ⟨0, 0, 2, 3⟩ - 1)).y2 = 3 ∧
    (∀ bs ∈ batch_sectors ⟨0, 0, 2, 3⟩, (sector_pixels bs).length ≤ max_conc_req) :=
  get_level_data_batching ⟨0, 0, 2, 3⟩ (by decide)

/-- Claim C4 counterexample. The claim says the driver accepts exactly the
sectors with 0 ≤ x1 ≤ x2 ≤ 700 and 0 ≤ y1 ≤ y2 ≤ 700. The empty sector
(0,0,0,0) satisfies that predicate, yet `is_valid` rejects it: the
membership test `(x1,y1) in np.ndindex(x2,y2)` demands the STRICT
inequalities x1 < x2 and y1 < y2. -/
theorem is_valid_empty_sector_rejected :
    ((0 : ℤ) ≤ 0 ∧ (0 : ℤ) ≤ 0 ∧ (0 : ℤ) ≤ 700 ∧
     (0 : ℤ) ≤ 0 ∧ (0 : ℤ) ≤ 0 ∧ (0 : ℤ) ≤ 700) ∧
    is_valid ⟨0, 0, 0, 0⟩ = Except.ok false :=
  ⟨by decide, by decide⟩

/-- Claim C4 as amended: the driver accepts a sector exactly when
0 ≤ x1 < x2 ≤ 700 and 0 ≤ y1 < y2 ≤ 700 (strict inequalities); for every
sector the validator rejects (returns False after its printed diagnostic),
`get_level_data` issues zero network requests and returns the trivial
1×1 zero grid. -/
theorem is_valid_accepts_iff (s : Sector) :
    (is_valid s = Except.ok true ↔
      (0 ≤ s.x1 ∧ s.x1 < s.x2 ∧ s.x2 ≤ 700 ∧ 0 ≤ s.y1 ∧ s.y1 < s.y2 ∧ s.y2 ≤ 700)) ∧
    (∀ (authorization : Option String) (service : ℤ → ℤ → ℤ),
      is_valid s = Except.ok false →
      get_level_data authorization service s = Except.ok (zeros 1 1, 0)) := by
  refine ⟨is_valid_iff s, fun authorization service hfalse => ?_⟩
  simp only [get_level_data, hfalse]

/-- Claim C5: for every valid sector and every coordinate (x, y) inside it,
the grid built by the concurrent fetch holds the service's level for (x, y)
at cell (x - x1, y - y1), and the filled grid is the same for EVERY
permutation of the fetched (coordinate, level) results: completion order
never matters because the scatter step addresses cells by coordinate. -/
theorem get_level_data_concurrent_scatter_correct (s : Sector) (service : ℤ → ℤ → ℤ)
    (hv : is_valid s = Except.ok true) (x y : ℤ)
    (hx : s.x1 ≤ x ∧ x < s.x2) (hy : s.y1 ≤ y ∧ y < s.y2)
    (l : List (ℤ × ℤ × ℤ)) (hl : l.Perm (sector_results service s)) :
    cell (fill_data s.x1 s.y1
        (zeros (s.x2 - s.x1).toNat (s.y2 - s.y1).toNat, 0) l).1
      (x - s.x1).toNat (y - s.y1).toNat = service x y ∧
    (fill_data s.x1 s.y1
        (zeros (s.x2 - s.x1).toNat (s.y2 - s.y1).toNat, 0) l).1 =
      get_level_data_concurrent service s := by
  obtain ⟨c1, c2, c3, c4, c5, c6⟩ := valid_bounds s hv
  have key : ∀ (l2 : List (ℤ × ℤ × ℤ)), l2.Perm (sector_results service s) →
      ∀ i j : ℕ, i < (s.x2 - s.x1).toNat → j < (s.y2 - s.y1).toNat →
      cell (fill_data s.x1 s.y1
          (zeros (s.x2 - s.x1).toNat (s.y2 - s.y1).toNat, 0) l2).1 i j =
        service (s.x1 + (i : ℤ)) (s.y1 + (j : ℤ)) := by
    intro l2 hl2 i j hi hj
    refine fill_cell _ _ s.x1 s.y1 i j _ l2 _ (zeros_shape _ _) ?_ (Or.inl ?_)
    · intro r hr hwrt
      obtain ⟨a, b, ha, hb, rfl⟩ := (mem_sector_results service s r).mp (hl2.subset hr)
      obtain ⟨hwa, hwb⟩ := hwrt
      dsimp only at hwa hwb
      rw [(by ring : s.x1 + (a : ℤ) - s.x1 = (a : ℤ)),
          np_resolve_in_range (by positivity) (by exact_mod_cast ha)] at hwa
      rw [(by ring : s.y1 + (b : ℤ) - s.y1 = (b : ℤ)),
          np_resolve_in_range (by positivity) (by exact_mod_cast hb)] at hwb
      have hai : a = i := by
        have h2 := Option.some.inj hwa
        omega
      have hbj : b = j := by
        have h2 := Option.some.inj hwb
        omega
      subst hai
      subst hbj
      rfl
    · refine ⟨(s.x1 + (i : ℤ), s.y1 + (j : ℤ),
        service (s.x1 + (i : ℤ)) (s.y1 + (j : ℤ))), ?_, ?_, ?_⟩
      · exact hl2.mem_iff.mpr ((mem_sector_results service s _).mpr ⟨i, j, hi, hj, rfl⟩)
      · show np_resolve _ (s.x1 + (i : ℤ) - s.x1) = some i
        rw [(by ring : s.x1 + (i : ℤ) - s.x1 = (i : ℤ)),
            np_resolve_in_range (by positivity) (by exact_mod_cast hi)]
        simp
      · show np_resolve _ (s.y1 + (j : ℤ) - s.y1) = some j
        rw [(by ring : s.y1 + (j : ℤ) - s.y1 = (j : ℤ)),
            np_resolve_in_range (by positivity) (by exact_mod_cast hj)]
        simp
  have hxi : (x - s.x1).toNat < (s.x2 - s.x1).toNat := by omega
  have hyj : (y - s.y1).toNat < (s.y2 - s.y1).toNat := by omega
  have hxx : s.x1 + ((x - s.x1).toNat : ℤ) = x := by omega
  have hyy : s.y1 + ((y - s.y1).toNat : ℤ) = y := by omega
  constructor
  · rw [key l hl _ _ hxi hyj, hxx, hyy]
  · have g1 := fill_shape (s.x2 - s.x1).toNat (s.y2 - s.y1).toNat s.x1 s.y1 l
      (zeros (s.x2 - s.x1).toNat (s.y2 - s.y1).toNat, 0) (zeros_shape _ _)
    have g2 := concurrent_shape service s
    refine grid_ext _ _ _ _ g1 g2 (fun i j hi hj => ?_)
    rw [key l hl i j hi hj]
    show service _ _ =
      cell (fill_data s.x1 s.y1
        (zeros (s.x2 - s.x1).toNat (s.y2 - s.y1).toNat, 0) (sector_results service s)).1 i j
    rw [key (sector_results service s) (List.Perm.refl _) i j hi hj]

/-- Claim C5 witness: sector (0,0,2,2) with the mock service, results
scattered in reversed order, probed at coordinate (1, 0). -/
theorem get_level_data_concurrent_scatter_witness :
    cell (fill_data 0 0 (zeros ((2 : ℤ) - 0).toNat ((2 : ℤ) - 0).toNat, 0)
        ((sector_results srv_example ⟨0, 0, 2, 2⟩).reverse)).1
      ((1 : ℤ) - 0).toNat ((0 : ℤ) - 0).toNat = srv_example 1 0 ∧
    (fill_data 0 0 (zeros ((2 : ℤ) - 0).toNat ((2 : ℤ) - 0).toNat, 0)
        ((sector_results srv_example ⟨0, 0, 2, 2⟩).reverse)).1 =
      get_level_data_concurrent srv_example ⟨0, 0, 2, 2⟩ :=
  get_level_data_concurrent_scatter_correct ⟨0, 0, 2, 2⟩ srv_example (by decide) 1 0
    (by decide) (by decide) ((sector_results srv_example ⟨0, 0, 2, 2⟩).reverse)
    (List.reverse_perm (sector_results srv_example ⟨0, 0, 2, 2⟩))

/-- Claim C6: the wire payload built for pixel (x, y) swaps the axes: its
`pixel.x` field carries y and its `pixel.y` field carries x. -/
theorem fetch_payload_swaps_axes :
    ∀ x y : ℤ, (fetch_payload x y).pixel.x = y ∧ (fetch_payload x y).pixel.y = x :=
  fun _ _ => ⟨rfl, rfl⟩

/-- Claim C7: with the authorization credential absent or empty,
`get_level_data` on a valid sector fails `check_auth` (which prints its
diagnostic), issues zero network requests and returns the all-zero
(x2-x1)×(y2-y1) grid. -/
theorem get_level_data_missing_auth (s : Sector) (authorization : Option String)
    (service : ℤ → ℤ → ℤ) (hv : is_valid s = Except.ok true)
    (ha : authorization = none ∨ authorization = some "") :
    check_auth authorization = false ∧
    get_level_data authorization service s =
      Except.ok (zeros (s.x2 - s.x1).toNat (s.y2 - s.y1).toNat, 0) := by
  have hca : check_auth authorization = false := by
    rcases ha with rfl | rfl <;> rfl
  refine ⟨hca, ?_⟩
  simp [get_level_data, hv, hca]

/-- Claim C7 witness: missing key on the valid sector (0,0,2,3). -/
theorem get_level_data_missing_auth_witness :
    check_auth none = false ∧
    get_level_data none srv_example ⟨0, 0, 2, 3⟩ =
      Except.ok (zeros ((2 : ℤ) - 0).toNat ((3 : ℤ) - 0).toNat, 0) :=
  get_level_data_missing_auth ⟨0, 0, 2, 3⟩ none srv_example (by decide) (Or.inl rfl)

/-- Claim C8 counterexample. The claim says every result whose coordinate
falls outside the expected grid bounds is reported and skipped. Take origin
(1,1), 2×2 grid and result (0,1,5): its offset (0-1, 1-1) = (-1, 0) is
outside the bounds [0,2)×[0,2), so the claim demands the unchanged grid and
a report, i.e. `(zeros 2 2, true)`. Instead numpy resolves the negative
index -1 to row 1 and writes level 5 there with no report. -/
theorem scatter_result_wrap_counterexample :
    scatter_result 1 1 (zeros 2 2) (0, 1, 5) = ([[0, 0], [5, 0]], false) ∧
    ¬ (0 ≤ (0 : ℤ) - 1) :=
  ⟨by decide, by decide⟩

/-- Claim C8 as amended: a result whose offsets both numpy-resolve (offsets
in [-h,h)×[-w,w); negative ones wrap) is written at the resolved cell with
no report; a result with an unresolvable offset raises IndexError, which the
handler catches: it is reported and skipped, the grid unchanged. In both
cases the scatter step returns a grid of the same shape: the batch never
crashes. -/
theorem scatter_result_bounds (h w : ℕ) (x1 y1 : ℤ) (g : Grid) (r : ℤ × ℤ × ℤ)
    (hg : GridShape g h w) :
    (∀ i j : ℕ, np_resolve h (r.1 - x1) = some i → np_resolve w (r.2.1 - y1) = some j →
      scatter_result x1 y1 g r = (g.set i ((g.getD i []).set j r.2.2), false)) ∧
    ((np_resolve h (r.1 - x1) = none ∨ np_resolve w (r.2.1 - y1) = none) →
      scatter_result x1 y1 g r = (g, true)) ∧
    GridShape (scatter_result x1 y1 g r).1 h w :=
  ⟨fun i j hi hj => scatter_write h w x1 y1 g hg r i j ⟨hi, hj⟩,
   fun hout => scatter_skip h w x1 y1 g hg r hout,
   scatter_shape h w x1 y1 g hg r⟩

/-- Claim C8 witness: the in-range result (1,1,9) on a 2×2 grid at origin
(0,0). -/
theorem scatter_result_bounds_witness :
    (∀ i j : ℕ,
      np_resolve 2 ((1 : ℤ) - 0) = some i → np_resolve 2 ((1 : ℤ) - 0) = some j →
      scatter_result 0 0 (zeros 2 2) (1, 1, 9) =
        ((zeros 2 2).set i (((zeros 2 2).getD i []).set j 9), false)) ∧
    ((np_resolve 2 ((1 : ℤ) - 0) = none ∨ np_resolve 2 ((1 : ℤ) - 0) = none) →
      scatter_result 0 0 (zeros 2 2) (1, 1, 9) = (zeros 2 2, true)) ∧
    GridShape (scatter_result 0 0 (zeros 2 2) (1, 1, 9)).1 2 2 :=
  scatter_result_bounds 2 2 0 0 (zeros 2 2) (1, 1, 9) (zeros_shape 2 2)

/-- Claim C9: when the maximum level of the grid (np.amax) is 0 the
renderer shows nothing; when it is positive the plot is rendered. -/
theorem plot_level_map_renders_iff_positive (data : Grid) (m : ℤ)
    (hm : np_amax data = Except.ok m) :
    (m = 0 → plot_level_map_from_data data = Except.ok false) ∧
    (0 < m → plot_level_map_from_data data = Except.ok true) := by
  unfold plot_level_map_from_data
  rw [hm]
  constructor
  · rintro rfl
    rfl
  · intro h0
    show Except.ok (decide (0 < m)) = Except.ok true
    rw [decide_eq_true h0]

/-- Claim C9 witness: a grid with maximum level 2 renders. -/
theorem plot_level_map_renders_witness :
    plot_level_map_from_data [[0, 1], [2, 0]] = Except.ok true :=
  (plot_level_map_renders_iff_positive [[0, 1], [2, 0]] 2 (by rfl)).2 (by decide)

/-- Claim C10: every sector `is_valid` accepts has height h = x2 - x1 with
1 ≤ h ≤ 700, so `num_col_batch = max_conc_req // h` is at least 14 (hence
at least 1) and the `ceil(w / num_col_batch)` batch count never divides by
zero. -/
theorem valid_sector_num_col_batch_pos (s : Sector) (hv : is_valid s = Except.ok true) :
    1 ≤ s.x2 - s.x1 ∧ s.x2 - s.x1 ≤ 700 ∧
    14 ≤ num_col_batch (s.x2 - s.x1).toNat ∧ 0 < num_col_batch (s.x2 - s.x1).toNat := by
  obtain ⟨c1, c2, c3, c4, c5, c6⟩ := valid_bounds s hv
  have h14 := num_col_batch_ge (s.x2 - s.x1).toNat (by omega) (by omega)
  exact ⟨by omega, by omega, h14, by omega⟩

/-- Claim C10 witness at the full-canvas sector (0,0,700,700). -/
theorem valid_sector_num_col_batch_pos_witness :
    1 ≤ (700 : ℤ) - 0 ∧ (700 : ℤ) - 0 ≤ 700 ∧
    14 ≤ num_col_batch ((700 : ℤ) - 0).toNat ∧
    0 < num_col_batch ((700 : ℤ) - 0).toNat :=
  valid_sector_num_col_batch_pos ⟨0, 0, 700, 700⟩ (by decide)

end ZeventPlace
